import Mathlib

/-!
Verification of the Tandoor recipe importer (src/tandoor_import.py).

The script maps a source-format recipe JSON document into the Tandoor
recipe-creation payload, POSTs it, and best-effort attaches a preview image.
We embed the data model and the three routines (the transform, the import
routine, and the batch loop of main) shallowly: the typed shapes below follow
the SourceRecipe / TargetRecipe data model, HTTP and JSON parsing are an
explicit oracle (HttpWorld), and Python exceptions are threaded explicitly as
option/except values so that catch-and-log behaviour is visible.
-/

/-- One entry of a source ingredient group list:
name, amount (number), unit (string, possibly empty), usageInfo.
usageInfo is optional in the source (read via dict get with default). -/
structure Ingredient where
  name : String
  amount : Int
  unit : String
  usageInfo : Option String
deriving Repr, DecidableEq

/-- One source ingredient group: a dict holding an ingredients list. -/
structure IngredientGroup where
  ingredients : List Ingredient
deriving Repr, DecidableEq

/-- The source recipe document.  Every field a plain dict may lack is an
Option; title is required by the code (subscript access, line 47). -/
structure SourceRecipe where
  title : Option String
  additionalDescription : Option String
  instructions : Option String
  ingredientGroups : Option (List IngredientGroup)
  tags : Option (List String)
  preparationTime : Option Int
  siteUrl : Option String
  servings : Option Int
  previewImageUrlTemplate : Option String
deriving Repr, DecidableEq

/-- A source recipe with every optional field absent; concrete inputs below
override individual fields. -/
def emptySrc : SourceRecipe :=
  { title := none, additionalDescription := none, instructions := none,
    ingredientGroups := none, tags := none, preparationTime := none,
    siteUrl := none, servings := none, previewImageUrlTemplate := none }

/-- Target payload food object (line 32). -/
structure TFood where
  name : String
deriving Repr, DecidableEq

/-- Target payload unit object (line 34). -/
structure TUnit where
  name : String
deriving Repr, DecidableEq

/-- One transformed ingredient entry (source lines 31-36). -/
structure TIngredient where
  food : TFood
  amount : String
  unit : Option TUnit
  note : String
deriving Repr, DecidableEq

/-- One target step (line 40): an instruction and an ingredients list. -/
structure TStep where
  instruction : String
  ingredients : List TIngredient
deriving Repr, DecidableEq

/-- One target keyword (line 43): a dict with a name. -/
structure TKeyword where
  name : String
deriving Repr, DecidableEq

/-- The Tandoor recipe-creation payload returned by the transform
(source lines 46-55).  Its fields are exactly the keys of the returned dict;
in particular there is no ingredients key. -/
structure TargetRecipe where
  name : String
  description : String
  keywords : List TKeyword
  steps : List TStep
  working_time : Int
  source_url : String
  servings : Int
  «private» : Bool
deriving Repr, DecidableEq

/-- Python str() applied to a numeric amount. -/
def pyStr (n : Int) : String := toString n

/-- The characters Python str.strip removes: ASCII whitespace. -/
def isSpaceChar (c : Char) : Bool :=
  c = ' ' || c = '\t' || c = '\n' || c = '\r' || c = '\x0b' || c = '\x0c'

/-- Python str.strip on a character list: drop whitespace from both ends. -/
def stripChars (cs : List Char) : List Char :=
  ((cs.dropWhile isSpaceChar).reverse.dropWhile isSpaceChar).reverse

/-- Python str.strip (no arguments). -/
def pyStrip (s : String) : String := String.mk (stripChars s.data)

/-- Helper for pySplit: scan the characters left to right, cutting at each
non-overlapping occurrence of the (non-empty) separator; acc holds the
current segment reversed; the fuel is an upper bound on the number of scan
steps, so the recursion is structural and evaluates in the kernel. -/
def splitSepFuel (sep : List Char) : Nat → List Char → List Char → List (List Char)
  | 0, _, acc => [acc.reverse]
  | _ + 1, [], acc => [acc.reverse]
  | fuel + 1, c :: rest, acc =>
    if sep.isPrefixOf (c :: rest) then
      acc.reverse :: splitSepFuel sep fuel (List.drop (sep.length - 1) rest) []
    else
      splitSepFuel sep fuel rest (c :: acc)

/-- Python str.split with a non-empty separator string: split on each
non-overlapping occurrence, left to right; splitting the empty string
yields one empty segment. -/
def pySplit (s sep : String) : List String :=
  (splitSepFuel sep.data s.data.length s.data []).map String.mk

/-- Helper for pyReplace, fuelled like splitSepFuel. -/
def replaceFuel (pat rep : List Char) : Nat → List Char → List Char
  | 0, cs => cs
  | _ + 1, [] => []
  | fuel + 1, c :: rest =>
    if pat.isPrefixOf (c :: rest) then
      rep ++ replaceFuel pat rep fuel (List.drop (pat.length - 1) rest)
    else
      c :: replaceFuel pat rep fuel rest

/-- Python str.replace with a non-empty pattern: replace every
non-overlapping occurrence, left to right. -/
def pyReplace (s pat rep : String) : String :=
  String.mk (replaceFuel pat.data rep.data s.data.length s.data)

/-- Source lines 31-36: one ingredient dict of the local ingredients list.
amount: str of the amount if it is nonzero, else the empty string;
unit: a name dict if the unit string is truthy (non-empty), else None;
note: usageInfo with default empty string. -/
def transformIngredient (ing : Ingredient) : TIngredient :=
  { food := { name := ing.name }
  , amount := if ing.amount != 0 then pyStr ing.amount else ""
  , unit := if ing.unit != "" then some { name := ing.unit } else none
  , note := ing.usageInfo.getD "" }

/-- Source lines 27-36: the local ingredients list.  The guard on line 28 is
Python truthiness of the dict lookup: the loop body runs only when the key is
present and the list non-empty; the nested loop appends one transformed entry
per ingredient, group order preserved. -/
def transformIngredients (r : SourceRecipe) : List TIngredient :=
  match r.ingredientGroups with
  | none => []
  | some gs =>
    if gs.isEmpty then []
    else gs.flatMap (fun g => g.ingredients.map transformIngredient)

/-- The step delimiter: a double CRLF. -/
def crlf2 : String := "\r\n\r\n"

/-- Source lines 39-40: split the instructions string (default empty) on the
double-CRLF delimiter, then keep, for each segment whose strip is truthy, a
step holding the stripped segment and an empty ingredients list. -/
def transformSteps (r : SourceRecipe) : List TStep :=
  (pySplit (r.instructions.getD "") crlf2).filterMap
    (fun step => if pyStrip step != "" then
        some { instruction := pyStrip step, ingredients := [] }
      else none)

/-- Source lines 43-44: keywords from tags (kept when the tag and its strip
are both truthy), then the pyimport keyword is appended. -/
def transformKeywords (r : SourceRecipe) : List TKeyword :=
  (((r.tags.getD []).filter (fun tag => tag != "" && pyStrip tag != "")).map
    (fun tag => ({ name := tag } : TKeyword)))
    ++ [{ name := "pyimport" }]

/-- Source lines 25-55, the transform.  The one fallible dict access on a
well-shaped document is the subscript read of title (line 47); it is
evaluated when the returned dict is built, after the ingredients, steps and
keywords lists have been computed.  The local ingredients list is bound but
never placed into the result. -/
def transform_recipe (r : SourceRecipe) : Except String TargetRecipe :=
  let _ingredients := transformIngredients r
  let steps := transformSteps r
  let keywords := transformKeywords r
  match r.title with
  | none => .error "KeyError: title"
  | some title =>
    .ok { name := title
        , description := r.additionalDescription.getD ""
        , keywords := keywords
        , steps := steps
        , working_time := r.preparationTime.getD 0
        , source_url := r.siteUrl.getD ""
        , servings := r.servings.getD 0
        , «private» := false }

/-- The external calls the import routine can attempt, in order of attempt. -/
inductive Request where
  | createRecipe : TargetRecipe → Request
  | getImage : String → Request
  | putImage : Int → String → Request
deriving Repr, DecidableEq

/-- The oracle for one import call: what the outside world answers to each
HTTP call the routine can make.  An error value models the library call
raising an exception with that message; an ok value carries status code and
body.  postJsonId is the evaluation of the id field of the parsed creation
response (line 74), which can itself raise. -/
structure HttpWorld where
  postResp : Except String (Nat × String)
  postJsonId : Except String Int
  getResp : Except String (Nat × String)
  putResp : Except String Nat
deriving Repr

/-- Log line of source line 71. -/
def errorCreatingLine (title text : String) : String :=
  s!"Error creating recipe {title}: {text}"

/-- Log line of source line 98. -/
def errorAddingLine (title : String) : String :=
  s!"Error adding image for {title}"

/-- Log line of source line 100. -/
def errorDownloadingLine (title : String) : String :=
  s!"Error downloading image for {title}"

/-- Log line of source line 103. -/
def errorImageUploadLine (title e : String) : String :=
  s!"Error during image upload for {title}: {e}"

/-- Log line of source line 105 (the title is quoted in the message). -/
def successLine (title : String) : String :=
  s!"Recipe \x27{title}\x27 successfully imported"

/-- Log line of source line 109. -/
def errorImportingLine (title e : String) : String :=
  s!"Error importing {title}: {e}"

/-- Log line of source line 135. -/
def errorUrlLine (url e : String) : String :=
  s!"Error processing URL {url}: {e}"

/-- Source lines 77-103: the image step with its inner try/except.  The
guard on line 77 is truthiness of the dict lookup (present and non-empty).
All format placeholders of the template are replaced by crop-642x428; a
non-200 download logs and skips the upload; a non-200 upload logs; any
exception in the block is caught and logged.  Returns the log lines printed
and the requests attempted. -/
def importImageStep (r : SourceRecipe) (title : String) (recipe_id : Int)
    (w : HttpWorld) : List String × List Request :=
  let tmpl := r.previewImageUrlTemplate.getD ""
  if tmpl != "" then
    let image_url := pyReplace tmpl "<format>" "crop-642x428"
    match w.getResp with
    | .error e =>
      ([errorImageUploadLine title e], [.getImage image_url])
    | .ok (gstatus, _content) =>
      if gstatus == 200 then
        match w.putResp with
        | .error e =>
          ([errorImageUploadLine title e],
           [.getImage image_url, .putImage recipe_id image_url])
        | .ok pstatus =>
          if pstatus != 200 then
            ([errorAddingLine title],
             [.getImage image_url, .putImage recipe_id image_url])
          else ([], [.getImage image_url, .putImage recipe_id image_url])
      else
        ([errorDownloadingLine title], [.getImage image_url])
  else ([], [])

/-- Source lines 59-106: the body of the import routine before the outer
exception handler.  Returns the log lines printed, the requests attempted,
and the exception escaping the body, if any (to be caught by the outer
handler).  After a successful transform, the subscript reads of title on
lines 71, 98, 100, 103 and 105 all return the same string the transform
placed into the payload name field on line 47, which is how the title is
read here. -/
def import_recipe_body (r : SourceRecipe) (w : HttpWorld) :
    List String × List Request × Option String :=
  match transform_recipe r with
  | .error e => ([], [], some e)
  | .ok tandoor_recipe =>
    let title := tandoor_recipe.name
    match w.postResp with
    | .error e => ([], [.createRecipe tandoor_recipe], some e)
    | .ok (status, text) =>
      if status != 201 then
        ([errorCreatingLine title text],
         [.createRecipe tandoor_recipe], none)
      else
        match w.postJsonId with
        | .error e => ([], [.createRecipe tandoor_recipe], some e)
        | .ok recipe_id =>
          let (ilogs, ireqs) := importImageStep r title recipe_id w
          (ilogs ++ [successLine title],
           .createRecipe tandoor_recipe :: ireqs, none)

/-- The observable outcome of one import call: log lines, attempted
requests, and the exception propagated to the caller, if any. -/
structure ImportTrace where
  logs : List String
  requests : List Request
  raised : Option String
deriving Repr, DecidableEq

/-- Source lines 57-109, the import routine: the body wrapped in a
try/except over all exceptions, whose handler prints the error-importing
line with the title read by dict get with default unknown, and returns
normally (the handler itself performs only an infallible dict get and a
print, so nothing is re-raised). -/
def import_recipe (r : SourceRecipe) (w : HttpWorld) : ImportTrace :=
  let (logs, requests, exc) := import_recipe_body r w
  match exc with
  | none => { logs := logs, requests := requests, raised := none }
  | some e =>
    { logs := logs ++ [errorImportingLine (r.title.getD "unknown") e]
    , requests := requests
    , raised := none }

/-- One iteration outcome of the batch loop in main (lines 124-135). -/
inductive BatchEvent where
  | imported : String → SourceRecipe → ImportTrace → BatchEvent
  | urlError : String → String → BatchEvent
deriving Repr, DecidableEq

/-- Source lines 124-135: the batch loop.  fetch models the URL download
followed by JSON parsing for a given URL (either a parsed document or a
raised exception); env gives the HttpWorld answering the import calls made
for that URL.  Each iteration trims the line and runs the
fetch-parse-import body inside try/except; an exception caught there is
logged as a urlError event and the loop continues; an exception escaping an
iteration would end the loop, and is returned as the second component. -/
def runBatch (fetch : String → Except String SourceRecipe)
    (env : String → HttpWorld) : List String → List BatchEvent × Option String
  | [] => ([], none)
  | raw :: rest =>
    let url := pyStrip raw
    let (ev, exc) : BatchEvent × Option String :=
      match fetch url with
      | .error e => (.urlError url (errorUrlLine url e), none)
      | .ok recipe_data =>
        (.imported url recipe_data (import_recipe recipe_data (env url)), none)
    match exc with
    | some e => ([ev], some e)
    | none =>
      let (evs, exc2) := runBatch fetch env rest
      (ev :: evs, exc2)

/-! Concrete inputs used to exercise the theorems below.  The soup recipe is
the worked scenario of the specification. -/

/-- The scenario recipe: title Soup, two instruction segments, three tags of
which only one survives, preparation time 10, servings 4. -/
def soup : SourceRecipe :=
  { emptySrc with
    title := some "Soup"
    instructions := some "Boil water.\r\n\r\nAdd salt."
    tags := some ["quick", "", " "]
    preparationTime := some 10
    servings := some 4 }

/-- The payload the transform produces for the soup recipe. -/
def soupTr : TargetRecipe :=
  { name := "Soup", description := ""
  , keywords := [{ name := "quick" }, { name := "pyimport" }]
  , steps := [{ instruction := "Boil water.", ingredients := [] },
              { instruction := "Add salt.", ingredients := [] }]
  , working_time := 10, source_url := "", servings := 4, «private» := false }

/-- A recipe one of whose source tags is itself the string pyimport. -/
def pyTagRecipe : SourceRecipe :=
  { emptySrc with title := some "T", tags := some ["pyimport"] }

/-- A recipe with a tag that carries surrounding whitespace but is not
whitespace-only. -/
def wsTagRecipe : SourceRecipe :=
  { emptySrc with title := some "T", tags := some [" quick "] }

/-- The payload the transform produces for wsTagRecipe. -/
def wsTagTr : TargetRecipe :=
  { name := "T", description := ""
  , keywords := [{ name := " quick " }, { name := "pyimport" }]
  , steps := [], working_time := 0, source_url := "", servings := 0
  , «private» := false }

/-- The soup recipe with a preview image URL template. -/
def imgRecipe : SourceRecipe :=
  { soup with
    previewImageUrlTemplate := some "https://img.example/<format>/soup.jpg" }

/-- A world whose creation POST answers 400 Bad Request. -/
def wBad : HttpWorld :=
  { postResp := .ok (400, "Bad Request"), postJsonId := .error "KeyError: id"
  , getResp := .error "not reached", putResp := .error "not reached" }

/-- A world where creation succeeds with id 42 and the image download
answers 404. -/
def wImg404 : HttpWorld :=
  { postResp := .ok (201, "created"), postJsonId := .ok 42
  , getResp := .ok (404, ""), putResp := .error "not reached" }

/-- A world whose creation POST raises a connection error. -/
def wErr : HttpWorld :=
  { postResp := .error "ConnectionError", postJsonId := .error "KeyError: id"
  , getResp := .error "ConnectionError", putResp := .error "ConnectionError" }

/-- A fetch oracle knowing one URL; every other URL (in particular the
empty string, which the HTTP client rejects before any request) raises. -/
def demoFetch : String → Except String SourceRecipe :=
  fun u => if u = "https://example.org/soup.json" then .ok soup
           else .error "Invalid URL"

/-- A world oracle for the batch driver. -/
def demoEnv : String → HttpWorld := fun _ => wImg404

/-- A one-ingredient group with a zero amount. -/
def saltGroup : IngredientGroup :=
  { ingredients := [{ name := "Salt", amount := 0, unit := "", usageInfo := none }] }

/-! Helper lemmas. -/

/-- A tag whose strip is non-empty is itself non-empty, so the two-part
truthiness test of line 43 reduces to the strip test. -/
theorem tagFilter_eq (t : String) :
    (t != "" && pyStrip t != "") = (pyStrip t != "") := by
  by_cases h : t = ""
  · subst h; rfl
  · simp [h]

/-- The keywords list in spec form: tags surviving the strip test, carried
verbatim, with the pyimport keyword appended. -/
theorem transformKeywords_eq (r : SourceRecipe) :
    transformKeywords r =
      ((r.tags.getD []).filter (fun t => pyStrip t != "")).map
        (fun t => ({ name := t } : TKeyword)) ++ [{ name := "pyimport" }] := by
  unfold transformKeywords
  congr 2
  exact List.filter_congr (fun t _ => tagFilter_eq t)

/-- Inversion of a successful transform: its components. -/
theorem transform_ok_fields (r : SourceRecipe) (tr : TargetRecipe)
    (h : transform_recipe r = .ok tr) :
    tr.keywords = transformKeywords r ∧ tr.steps = transformSteps r ∧
    r.title = some tr.name := by
  unfold transform_recipe at h
  cases ht : r.title with
  | none => rw [ht] at h; exact absurd h (by simp)
  | some t =>
    rw [ht] at h
    simp only [Except.ok.injEq] at h
    subst h
    exact ⟨rfl, rfl, rfl⟩

/-- Every step built on line 40 carries an empty ingredients list. -/
theorem steps_ingredients_nil (r : SourceRecipe) :
    ∀ s ∈ transformSteps r, s.ingredients = [] := by
  intro s hs
  unfold transformSteps at hs
  obtain ⟨a, -, ha⟩ := List.mem_filterMap.mp hs
  by_cases h : (pyStrip a != "") = true
  · rw [if_pos h] at ha
    cases ha
    rfl
  · rw [if_neg h] at ha
    cases ha

/-- The instructions of the step list are the stripped non-whitespace
segments, in order. -/
theorem steps_map_instruction (l : List String) :
    ((l.filterMap (fun step => if pyStrip step != "" then
        some ({ instruction := pyStrip step, ingredients := [] } : TStep)
      else none)).map TStep.instruction)
      = (l.filter (fun s => pyStrip s != "")).map pyStrip := by
  induction l with
  | nil => rfl
  | cons a l ih =>
    by_cases h : (pyStrip a != "") = true
    · simp only [List.filterMap_cons, List.filter_cons, h, if_pos, List.map_cons, ih]
    · simp only [List.filterMap_cons, List.filter_cons, h, if_neg, Bool.false_eq_true,
        ite_false, ih]

/-- The amounts of the computed ingredient entries are the conditional
decimal renderings of the source amounts. -/
theorem amounts_map (gs : List IngredientGroup) :
    ((gs.flatMap (fun g => g.ingredients.map transformIngredient)).map TIngredient.amount)
      = ((gs.flatMap IngredientGroup.ingredients).map
          (fun ing => if ing.amount = 0 then "" else toString ing.amount)) := by
  induction gs with
  | nil => rfl
  | cons g gs ih =>
    simp only [List.flatMap_cons, List.map_append, ih, List.map_map]
    congr 1
    apply List.map_congr_left
    intro ing _
    by_cases h0 : ing.amount = 0
    · simp [transformIngredient, Function.comp, h0]
    · simp [transformIngredient, Function.comp, pyStr, h0]

/-! The claims. -/

/-- C1: the transform computes a structured ingredients list from
ingredientGroups, but the returned payload never contains it: every step of
the output carries an empty ingredients list, and (the payload having no
top-level ingredients field by its shape) the whole output is unchanged
under any replacement of ingredientGroups — the computed list is
discarded. -/
theorem C1_ingredients_discarded (r : SourceRecipe) (tr : TargetRecipe)
    (h : transform_recipe r = .ok tr) :
    (∀ s ∈ tr.steps, s.ingredients = []) ∧
    (∀ gs, transform_recipe { r with ingredientGroups := gs }
             = transform_recipe r) := by
  obtain ⟨-, hs, -⟩ := transform_ok_fields r tr h
  constructor
  · intro s hmem
    rw [hs] at hmem
    exact steps_ingredients_nil r s hmem
  · intro gs
    cases r
    rfl

/-- C1 witness: at the soup recipe, replacing the ingredient groups by a
non-trivial group list leaves the transform output unchanged. -/
theorem C1_witness :
    transform_recipe { soup with ingredientGroups := some [saltGroup] }
      = transform_recipe soup :=
  (C1_ingredients_discarded soup soupTr rfl).2 (some [saltGroup])

/-- C2: the import routine never propagates an exception: its outcome never
carries a raised exception, and whenever the body raises, the routine
returns the body trace extended with the error-importing log line built
from the title (falling back to unknown when the title is absent). -/
theorem C2_no_exception_escapes (r : SourceRecipe) (w : HttpWorld) :
    (import_recipe r w).raised = none ∧
    (∀ logs reqs e, import_recipe_body r w = (logs, reqs, some e) →
      import_recipe r w =
        { logs := logs ++ [errorImportingLine (r.title.getD "unknown") e]
        , requests := reqs, raised := none }) := by
  rcases hb : import_recipe_body r w with ⟨ls, rs, exc⟩
  constructor
  · cases exc <;> simp [import_recipe, hb]
  · intro logs reqs e h
    simp only [Prod.mk.injEq] at h
    obtain ⟨h1, h2, h3⟩ := h
    subst h1 h2 h3
    simp [import_recipe, hb]

/-- C2 witness: importing a document with no title under a failing POST
world returns normally with the unknown-title error line. -/
theorem C2_witness :
    import_recipe emptySrc wErr =
      { logs := [] ++ [errorImportingLine "unknown" "KeyError: title"]
      , requests := [], raised := none } :=
  (C2_no_exception_escapes emptySrc wErr).2 [] [] "KeyError: title" rfl

/-- C4: the transform is a total function of the document whose only
failure is the missing required title: it succeeds exactly when the title
is present — whatever the ingredient groups and the other optional fields —
and an absent title yields the KeyError. -/
theorem C4_title_only_failure (r : SourceRecipe) :
    ((transform_recipe r).isOk = r.title.isSome) ∧
    (r.title = none → transform_recipe r = .error "KeyError: title") := by
  unfold transform_recipe
  cases ht : r.title <;> simp [ht, Except.isOk, Except.toBool]

/-- C4 witness: the document with every field absent fails with the
KeyError on title. -/
theorem C4_witness :
    transform_recipe emptySrc = .error "KeyError: title" :=
  (C4_title_only_failure emptySrc).2 rfl

/-- C3 counterexample: when a source tag is itself the string pyimport, the
keywords of the payload do NOT contain exactly one pyimport entry — the tag
survives the filter and the unconditional append adds a second one. -/
theorem C3_counterexample :
    ¬ ((transform_recipe pyTagRecipe).toOption.map
        (fun tr => tr.keywords.count { name := "pyimport" }) = some 1) := by
  decide

/-- C3 (amended): the keywords are the surviving source tags followed by
one unconditionally appended pyimport keyword, always the last element; the
number of pyimport entries is the number of surviving source tags equal to
pyimport plus one — exactly one precisely when no source tag is itself
pyimport. -/
theorem C3_pyimport_appended (r : SourceRecipe) (tr : TargetRecipe)
    (h : transform_recipe r = .ok tr) :
    tr.keywords =
      ((r.tags.getD []).filter (fun t => pyStrip t != "")).map
        (fun t => ({ name := t } : TKeyword)) ++ [{ name := "pyimport" }] ∧
    tr.keywords.count { name := "pyimport" } =
      ((r.tags.getD []).filter (fun t => pyStrip t != "")).count "pyimport" + 1 := by
  obtain ⟨hk, -, -⟩ := transform_ok_fields r tr h
  rw [hk, transformKeywords_eq]
  refine ⟨rfl, ?_⟩
  rw [List.count_append]
  have hinj : Function.Injective (fun t => ({ name := t } : TKeyword)) := by
    intro a b hab
    simpa using hab
  have hmap := List.count_map_of_injective
    ((r.tags.getD []).filter (fun t => pyStrip t != ""))
    (fun t => ({ name := t } : TKeyword)) hinj "pyimport"
  simp only [hmap]
  rfl

/-- C3 witness: at the soup recipe the pyimport count is one more than the
number of surviving tags equal to pyimport. -/
theorem C3_witness :
    soupTr.keywords.count { name := "pyimport" } =
      ((soup.tags.getD []).filter (fun t => pyStrip t != "")).count "pyimport" + 1 :=
  (C3_pyimport_appended soup soupTr rfl).2

/-- C5: when the creation POST answers any status other than 201, the
routine logs exactly the error line carrying the title and the response
body, attempts no image request, and returns without raising. -/
theorem C5_non201_early_return (r : SourceRecipe) (w : HttpWorld)
    (tr : TargetRecipe) (st : Nat) (txt : String)
    (h : transform_recipe r = .ok tr)
    (hw : w.postResp = .ok (st, txt)) (hst : st ≠ 201) :
    import_recipe r w =
      { logs := [errorCreatingLine tr.name txt]
      , requests := [.createRecipe tr]
      , raised := none } := by
  have hst' : (st != 201) = true := by simpa using hst
  simp [import_recipe, import_recipe_body, h, hw, hst']

/-- C5 witness: the soup recipe under a 400 Bad Request world. -/
theorem C5_witness :
    import_recipe soup wBad =
      { logs := [errorCreatingLine "Soup" "Bad Request"]
      , requests := [.createRecipe soupTr]
      , raised := none } :=
  C5_non201_early_return soup wBad soupTr 400 "Bad Request" rfl rfl (by decide)

/-- C6: when the recipe has a preview image template, creation succeeds
(201 with an id) and the image download answers a non-200 status, no
image-upload request is attempted and the import still logs the success
line — the image failure does not change the outcome. -/
theorem C6_image_failure_ignored (r : SourceRecipe) (w : HttpWorld)
    (tr : TargetRecipe) (tmpl txt content : String) (rid : Int) (gst : Nat)
    (h : transform_recipe r = .ok tr)
    (htm : r.previewImageUrlTemplate = some tmpl) (hne : tmpl ≠ "")
    (hw : w.postResp = .ok (201, txt)) (hid : w.postJsonId = .ok rid)
    (hg : w.getResp = .ok (gst, content)) (hgst : gst ≠ 200) :
    import_recipe r w =
      { logs := [errorDownloadingLine tr.name, successLine tr.name]
      , requests := [.createRecipe tr,
                     .getImage (pyReplace tmpl "<format>" "crop-642x428")]
      , raised := none } := by
  have hne' : (tmpl != "") = true := by simpa using hne
  have hgst' : (gst == 200) = false := by simpa using hgst
  simp [import_recipe, import_recipe_body, importImageStep, h, hw, hid, htm,
    hne', hg, hgst']

/-- C6 witness: the image recipe under a created-then-404-download world:
the upload is never attempted and the success line is still printed. -/
theorem C6_witness :
    import_recipe imgRecipe wImg404 =
      { logs := [errorDownloadingLine "Soup", successLine "Soup"]
      , requests := [.createRecipe soupTr,
                     .getImage "https://img.example/crop-642x428/soup.jpg"]
      , raised := none } :=
  C6_image_failure_ignored imgRecipe wImg404 soupTr
    "https://img.example/<format>/soup.jpg" "created" "" 42 404
    rfl rfl (by decide) rfl rfl rfl (by decide)

/-- C7: the steps are exactly the segments of the instructions string split
on the double-CRLF delimiter, whitespace-only segments discarded, order
preserved (each kept step holds the stripped segment); an absent
instructions field yields an empty step list. -/
theorem C7_instruction_split (r : SourceRecipe) (tr : TargetRecipe)
    (h : transform_recipe r = .ok tr) :
    tr.steps.map TStep.instruction =
      ((pySplit (r.instructions.getD "") crlf2).filter
        (fun s => pyStrip s != "")).map pyStrip ∧
    (r.instructions = none → tr.steps = []) := by
  obtain ⟨-, hs, -⟩ := transform_ok_fields r tr h
  constructor
  · rw [hs]
    exact steps_map_instruction _
  · intro hn
    rw [hs]
    unfold transformSteps
    rw [hn]
    rfl

/-- C7 witness: the soup instructions split into the two expected steps. -/
theorem C7_witness :
    soupTr.steps.map TStep.instruction =
      ((pySplit (soup.instructions.getD "") crlf2).filter
        (fun s => pyStrip s != "")).map pyStrip :=
  (C7_instruction_split soup soupTr rfl).1

/-- C8: the amount of every computed ingredient entry is the empty string
when the source amount is zero and the decimal rendering of the amount
otherwise; in particular a zero amount always yields the empty string,
never the string 0. -/
theorem C8_zero_amount_empty (r : SourceRecipe) :
    ((transformIngredients r).map TIngredient.amount =
      ((r.ingredientGroups.getD []).flatMap IngredientGroup.ingredients).map
        (fun ing => if ing.amount = 0 then "" else toString ing.amount)) ∧
    (∀ n u info,
      (transformIngredient
        { name := n, amount := 0, unit := u, usageInfo := info }).amount = "") := by
  constructor
  · unfold transformIngredients
    cases hg : r.ingredientGroups with
    | none => rfl
    | some gs =>
      by_cases he : gs.isEmpty
      · rw [List.isEmpty_iff] at he
        subst he
        rfl
      · simp only [he, ite_false, Option.getD_some]
        exact amounts_map gs
  · intro n u info
    rfl

/-- Membership-shaped unfolding of one batch iteration: the head event is
determined by the fetch of the trimmed line, and no exception continues
past the handler. -/
theorem runBatch_cons (fetch : String → Except String SourceRecipe)
    (env : String → HttpWorld) (raw : String) (rest : List String) :
    runBatch fetch env (raw :: rest) =
      ((match fetch (pyStrip raw) with
        | .error e =>
          BatchEvent.urlError (pyStrip raw) (errorUrlLine (pyStrip raw) e)
        | .ok rd =>
          BatchEvent.imported (pyStrip raw) rd
            (import_recipe rd (env (pyStrip raw))))
        :: (runBatch fetch env rest).1,
       (runBatch fetch env rest).2) := by
  rcases hr : runBatch fetch env rest with ⟨evs, exc2⟩
  cases hf : fetch (pyStrip raw) <;> simp [runBatch, hf, hr]

/-- C9: given that the HTTP client rejects the empty URL before any request
(fetching the empty string always raises), the batch driver processes every
line, passes each successfully fetched and parsed document of a trimmed
line to the import routine, logs a failing URL and proceeds, never lets a
failure abort the batch, and imports only non-empty trimmed lines. -/
theorem C9_batch_loop (fetch : String → Except String SourceRecipe)
    (env : String → HttpWorld) (urls : List String) (err0 : String)
    (hempty : fetch "" = .error err0) :
    (runBatch fetch env urls).2 = none ∧
    (runBatch fetch env urls).1.length = urls.length ∧
    (∀ raw ∈ urls, ∀ r, fetch (pyStrip raw) = .ok r →
        BatchEvent.imported (pyStrip raw) r (import_recipe r (env (pyStrip raw)))
          ∈ (runBatch fetch env urls).1) ∧
    (∀ raw ∈ urls, ∀ e, fetch (pyStrip raw) = .error e →
        BatchEvent.urlError (pyStrip raw) (errorUrlLine (pyStrip raw) e)
          ∈ (runBatch fetch env urls).1) ∧
    (∀ url r t, BatchEvent.imported url r t ∈ (runBatch fetch env urls).1 →
        url ≠ "" ∧ fetch url = .ok r ∧ t = import_recipe r (env url)) := by
  induction urls with
  | nil =>
    refine ⟨rfl, rfl, ?_, ?_, ?_⟩ <;> simp [runBatch]
  | cons raw rest ih =>
    obtain ⟨ih1, ih2, ih3, ih4, ih5⟩ := ih
    rw [runBatch_cons]
    refine ⟨ih1, by simp [ih2], ?_, ?_, ?_⟩
    · intro raw2 hmem r hr
      rcases List.mem_cons.mp hmem with heq | htail
      · subst heq
        rw [hr]
        exact List.mem_cons_self _ _
      · exact List.mem_cons_of_mem _ (ih3 raw2 htail r hr)
    · intro raw2 hmem e he
      rcases List.mem_cons.mp hmem with heq | htail
      · subst heq
        rw [he]
        exact List.mem_cons_self _ _
      · exact List.mem_cons_of_mem _ (ih4 raw2 htail e he)
    · intro url r t hmem
      rcases List.mem_cons.mp hmem with heq | htail
      · cases hf : fetch (pyStrip raw) with
        | error e =>
          rw [hf] at heq
          cases heq
        | ok rd =>
          rw [hf] at heq
          cases heq
          refine ⟨?_, hf, rfl⟩
          intro h0
          rw [h0] at hf
          rw [hempty] at hf
          cases hf
      · exact ih5 url r t htail

/-- C9 witness: a three-line batch (one known URL, one whitespace-only
line, one bad URL) is processed to the end and aborts nothing. -/
theorem C9_witness :
    (runBatch demoFetch demoEnv
      ["https://example.org/soup.json", " ", "bad"]).2 = none ∧
    (runBatch demoFetch demoEnv
      ["https://example.org/soup.json", " ", "bad"]).1.length = 3 :=
  ⟨(C9_batch_loop demoFetch demoEnv
      ["https://example.org/soup.json", " ", "bad"] "Invalid URL" rfl).1,
   (C9_batch_loop demoFetch demoEnv
      ["https://example.org/soup.json", " ", "bad"] "Invalid URL" rfl).2.1⟩

/-- C10: a source tag surviving the filter is carried into the keywords
verbatim — whenever a tag strips to a non-empty string, the keyword whose
name is the original tag string, leading and trailing whitespace preserved,
is in the payload keywords (stripping is used only for the emptiness
test). -/
theorem C10_tags_verbatim (r : SourceRecipe) (tr : TargetRecipe) (t : String)
    (h : transform_recipe r = .ok tr)
    (ht : t ∈ r.tags.getD []) (hne : pyStrip t ≠ "") :
    ({ name := t } : TKeyword) ∈ tr.keywords := by
  obtain ⟨hk, -, -⟩ := transform_ok_fields r tr h
  rw [hk, transformKeywords_eq]
  apply List.mem_append_left
  exact List.mem_map_of_mem _ (List.mem_filter.mpr ⟨ht, by simpa using hne⟩)

/-- C10 witness: the tag with surrounding spaces appears in the keywords
with its whitespace intact. -/
theorem C10_witness :
    ({ name := " quick " } : TKeyword) ∈ wsTagTr.keywords :=
  C10_tags_verbatim wsTagRecipe wsTagTr " quick " rfl (by decide) (by decide)
